import Mathlib

/-!
Verification development for `awebb_analytics.py`: a fetch/save/summarize
pipeline over four datasets (text, CSV, spreadsheet, JSON).

The Python source is shallowly embedded:
* pure data transformations become Lean functions over `List`/`String`/`ℚ`;
* the filesystem becomes an association list from filename to content;
* HTTP fetching becomes an environment value describing, per URL, either a
  transport-level exception or a status code with a payload;
* uncaught Python exceptions become an `aborted` flag threaded through the
  orchestrator; `try/except` blocks in the `process_*` functions are modelled
  by the step functions catching internally and logging instead of aborting.

Floating-point formatting is abstracted: numeric values are carried as exact
rationals, and the sample standard deviation is carried as the sample
variance (its reported value is the square root of the carried rational).
-/

/-! ## Generic character-list splitting (models Python `str.split`) -/

/-- Split a character list at every character satisfying `p`, keeping empty
segments (as Python `split(sep)` does). -/
def splitOnPred (p : Char → Bool) : List Char → List (List Char)
  | [] => [[]]
  | x :: xs =>
    match splitOnPred p xs with
    | [] => [[]]
    | g :: gs => if p x then [] :: g :: gs else (x :: g) :: gs

/-- Split at a single separator character. -/
def splitOnChar (c : Char) (l : List Char) : List (List Char) :=
  splitOnPred (fun x => x == c) l

/-- Python `text.split()`: split on whitespace runs, discarding empty tokens.
(Lean's `Char.isWhitespace` stands in for Python's whitespace set.) -/
def pyTokens (s : String) : List String :=
  ((splitOnPred Char.isWhitespace s.toList).filter (fun g => !g.isEmpty)).map
    (fun g => String.mk g)

/-- Join report lines the way the Python code writes them: each followed by a
newline. -/
def joinLines (ls : List String) : String :=
  String.join (ls.map (fun l => l ++ "\n"))

/-! ## Text summarizer (`process_text_data`, lines 100-133) -/

/-- One step of the dictionary accumulation
`word_freq[word] = word_freq.get(word, 0) + 1`: a Python dict updates the
existing entry in place, otherwise appends the new key at the end. -/
def insertWord (m : List (String × Nat)) (w : String) : List (String × Nat) :=
  if (m.lookup w).isSome then
    m.map (fun p => if p.1 = w then (p.1, p.2 + 1) else p)
  else
    m ++ [(w, 1)]

/-- The insertion-ordered word-frequency dictionary built by the `for` loop. -/
def word_freq (ws : List String) : List (String × Nat) :=
  ws.foldl insertWord []

/-- Specification-side definition: the distinct words of `ws` in first-seen
order, given a set `seen` of words to skip. -/
def firstSeenFrom (seen : List String) : List String → List String
  | [] => []
  | w :: ws =>
    if w ∈ seen then firstSeenFrom seen ws
    else w :: firstSeenFrom (seen ++ [w]) ws

/-- Specification-side definition: distinct words in first-seen order. -/
def firstSeen (ws : List String) : List String :=
  firstSeenFrom [] ws

/-- The lines written to `processed_text.txt` by `process_text_data`.
`len(set(words))` is modelled by `words.dedup.length` (the cardinality of the
set of words). -/
def process_text_lines (text : String) : List String :=
  let words := pyTokens text
  ["Total words: " ++ toString words.length,
   "Unique words: " ++ toString words.dedup.length,
   "Word frequencies:"]
  ++ (word_freq words).map (fun p => p.1 ++ ": " ++ toString p.2)

/-- The full report text written by `process_text_data`. -/
def process_text_report (text : String) : String :=
  joinLines (process_text_lines text)

/-! ## Tabular data model (pandas `DataFrame` after `read_csv` / `read_excel`)

A cell is a parsed number, a string, or a null (pandas `NaN`). A table is a
header row of column names plus data rows of cells. Column dtypes are not
stored separately: a column has numeric dtype exactly when it contains no
string cell (pandas assigns a numeric dtype when every non-null value in the
column parses as a number, and `float64` to an all-null column). -/

inductive Cell : Type
  | num (q : ℚ)
  | str (s : String)
  | null
deriving DecidableEq

structure Table where
  header : List String
  rows : List (List Cell)
deriving DecidableEq

/-- The cells of column `i` (missing positions read as null, matching the
NaN-padding of short rows). -/
def colCells (t : Table) (i : Nat) : List Cell :=
  t.rows.map (fun r => r.getD i Cell.null)

/-- Numeric dtype test: no string cell in the column. -/
def isNumCol (cells : List Cell) : Bool :=
  cells.all (fun c => match c with | Cell.str _ => false | _ => true)

/-- The numeric values of a column, skipping nulls (pandas statistics skip
NaN). -/
def colNums (cells : List Cell) : List ℚ :=
  cells.filterMap (fun c => match c with | Cell.num q => some q | _ => none)

/-! ## Numeric field parsing (pandas `read_csv` type inference)

Models parsing a raw CSV field as a number: optional sign, then digits with
at most one decimal point and at least one digit. (Scientific notation and
special float spellings are not modelled.) -/

/-- Value of a digit list, most significant first. -/
def digitsVal (l : List Char) : Nat :=
  l.foldl (fun a c => a * 10 + (c.toNat - 48)) 0

/-- Parse an unsigned numeral with optional decimal point. -/
def parseUnsigned (cs : List Char) : Option ℚ :=
  match splitOnChar '.' cs with
  | [ip] =>
    if ip ≠ [] ∧ ip.all Char.isDigit then some ((digitsVal ip : ℚ)) else none
  | [ip, fp] =>
    if (ip ≠ [] ∨ fp ≠ []) ∧ ip.all Char.isDigit ∧ fp.all Char.isDigit then
      some ((digitsVal ip : ℚ) + (digitsVal fp : ℚ) / (10 : ℚ) ^ fp.length)
    else none
  | _ => none

/-- Parse a raw field as a number, handling an optional leading sign. -/
def parseField (s : String) : Option ℚ :=
  match s.toList with
  | '-' :: rest => (parseUnsigned rest).map (fun q => -q)
  | '+' :: rest => parseUnsigned rest
  | cs => parseUnsigned cs

/-- A raw column is numeric when every non-empty field parses as a number
(empty fields are NaN and do not block a numeric dtype). -/
def colNumericRaw (fields : List String) : Bool :=
  fields.all (fun f => f = "" || (parseField f).isSome)

/-- Convert one raw field of a column whose numeric flag is `flag`. In a
numeric column non-empty fields become parsed numbers; in a non-numeric
(object) column they stay strings; empty fields become NaN either way. -/
def mkCell (flag : Bool) (f : String) : Cell :=
  if f = "" then Cell.null
  else if flag then
    match parseField f with
    | some q => Cell.num q
    | none => Cell.str f
  else Cell.str f

/-- pandas `read_csv` type inference over an already-split field matrix:
column `i` is typed by scanning all its values. -/
def parseTable (h : List String) (rows : List (List String)) : Table :=
  let flags := (List.range h.length).map
    (fun i => colNumericRaw (rows.map (fun r => r.getD i "")))
  { header := h,
    rows := rows.map (fun r =>
      (List.range h.length).map (fun i => mkCell (flags.getD i false) (r.getD i ""))) }

/-! ## CSV text splitting and `save_csv` (lines 82-87)

CSV text is modelled at the field level: lines split on newlines (blank lines
skipped, as `read_csv` does) and fields split on commas; quoting is not
modelled. -/

/-- Split CSV text into rows of raw fields. -/
def splitCsvText (s : String) : List (List String) :=
  ((splitOnChar '\n' s.toList).filter (fun l => !l.isEmpty)).map
    (fun line => (splitOnChar ',' line).map (fun f => String.mk f))

/-- `pd.read_csv` on CSV text: fails (raises) on empty input and on a row
with more fields than the header; short rows are NaN-padded. -/
def parseCsv (s : String) : Option Table :=
  match splitCsvText s with
  | [] => none
  | h :: rows =>
    if rows.all (fun r => r.length ≤ h.length) then some (parseTable h rows)
    else none

/-- Render one cell back to CSV text (`to_csv`); NaN renders empty.
Decimal formatting of numbers is abstracted by the rational rendering. -/
def renderCell : Cell → String
  | Cell.num q => toString q
  | Cell.str s => s
  | Cell.null => ""

/-- Comma-join a list of fields. -/
def joinCommas (fields : List String) : String :=
  String.intercalate "," fields

/-- The lines of `df.to_csv(file_path, index=False)`: header row then one
line per data row, column order preserved. -/
def serializeLines (t : Table) : List String :=
  joinCommas t.header :: t.rows.map (fun r => joinCommas (r.map renderCell))

/-- The CSV text written by `save_csv` after the parse/serialize round trip. -/
def serializeCsv (t : Table) : String :=
  joinLines (serializeLines t)

/-! ## Column statistics (lines 152-159 and 214-221)

pandas `mean`/`median`/`std`/`max`/`min` over a numeric column, NaN skipped.
`None` models a NaN result. The source's `Standard Deviation` value is the
square root of the `svar` field carried here (the sample variance with N-1
denominator); carrying the variance keeps the embedding rational and exact. -/

/-- Insert into a sorted list. -/
def insertSorted (x : ℚ) : List ℚ → List ℚ
  | [] => [x]
  | y :: ys => if x ≤ y then x :: y :: ys else y :: insertSorted x ys

/-- Insertion sort (ascending). -/
def sortQ (l : List ℚ) : List ℚ :=
  l.foldr insertSorted []

/-- Arithmetic mean; NaN on an empty column. -/
def qMean (l : List ℚ) : Option ℚ :=
  if l.length = 0 then none else some (l.sum / l.length)

/-- Median: middle element, or average of the two middle elements for even
counts; NaN on an empty column. -/
def qMedian (l : List ℚ) : Option ℚ :=
  let s := sortQ l
  let n := s.length
  if n = 0 then none
  else if n % 2 = 1 then some (s.getD (n / 2) 0)
  else some ((s.getD (n / 2 - 1) 0 + s.getD (n / 2) 0) / 2)

/-- Sample variance with N-1 denominator; NaN when fewer than 2 values
(pandas `std` with `ddof=1`). The reported standard deviation is its square
root. -/
def qSVar (l : List ℚ) : Option ℚ :=
  if l.length < 2 then none
  else
    let m := l.sum / l.length
    some ((l.map (fun x => (x - m) ^ 2)).sum / (l.length - 1 : ℚ))

/-- Maximum; NaN on an empty column. -/
def qMax : List ℚ → Option ℚ
  | [] => none
  | x :: xs => some (xs.foldl max x)

/-- Minimum; NaN on an empty column. -/
def qMin : List ℚ → Option ℚ
  | [] => none
  | x :: xs => some (xs.foldl min x)

/-- The five statistics stored per numeric column. -/
structure ColStats where
  mean : Option ℚ
  median : Option ℚ
  svar : Option ℚ
  max : Option ℚ
  min : Option ℚ
deriving DecidableEq

/-- `df.select_dtypes(include=['number']).columns` with each column's
non-null values: the numeric columns in header order. -/
def numericCols (t : Table) : List (String × List ℚ) :=
  (List.range t.header.length).filterMap (fun i =>
    let cells := colCells t i
    if isNumCol cells then some (t.header.getD i "", colNums cells) else none)

/-- The `stats` dictionary built by `process_csv_data` (lines 151-159). -/
def process_csv_stats (t : Table) : List (String × ColStats) :=
  (numericCols t).map (fun p =>
    (p.1, { mean := qMean p.2, median := qMedian p.2, svar := qSVar p.2,
            max := qMax p.2, min := qMin p.2 }))

/-- The `stats` dictionary built by `process_excel_data` (lines 213-221);
the source duplicates the CSV computation verbatim. -/
def process_excel_stats (t : Table) : List (String × ColStats) :=
  (numericCols t).map (fun p =>
    (p.1, { mean := qMean p.2, median := qMedian p.2, svar := qSVar p.2,
            max := qMax p.2, min := qMin p.2 }))

/-! ## Tabular report rendering -/

/-- Render an optional statistic value; `None` (NaN) prints as `nan`.
Exact float formatting is abstracted; the same rendering is used by both
tabular reports. -/
def renderStat (v : Option ℚ) : String :=
  match v with
  | none => "nan"
  | some q => toString q

/-- Render the reported standard deviation from the carried variance: the
square root of `v`, abstracted symbolically. -/
def renderStd (v : Option ℚ) : String :=
  match v with
  | none => "nan"
  | some q => "sqrt(" ++ toString q ++ ")"

/-- The `Mean`/`Median`/`Standard Deviation`/`Max`/`Min` lines for one
column's statistics, in the dictionary's insertion order (lines 153-159). -/
def statLines (s : ColStats) : List String :=
  ["Mean: " ++ renderStat s.mean,
   "Median: " ++ renderStat s.median,
   "Standard Deviation: " ++ renderStd s.svar,
   "Max: " ++ renderStat s.max,
   "Min: " ++ renderStat s.min]

/-- Python `tuple` textual form of a row: `(v,)` for one element,
`(v1, v2, ...)` otherwise. -/
def reprRow (r : List Cell) : String :=
  let parts := r.map (fun c =>
    match c with
    | Cell.num q => toString q
    | Cell.str s => "'" ++ s ++ "'"
    | Cell.null => "nan")
  match parts with
  | [p] => "(" ++ p ++ ",)"
  | ps => "(" ++ String.intercalate ", " ps ++ ")"

/-- The report lines written by `process_csv_data` (lines 161-169): a
rows-as-tuples section, then a statistics section with a `<column>:` heading
per numeric column, each heading preceded by a blank line. -/
def csvReportLines (t : Table) : List String :=
  ["Rows as tuples:"]
  ++ t.rows.map reprRow
  ++ ["", "Statistics for numeric columns:"]
  ++ (process_csv_stats t).flatMap (fun p => ["", p.1 ++ ":"] ++ statLines p.2)

/-- The report lines written by `process_excel_data` (lines 223-227): only
`Statistics for <column>:` headings with the metric lines, no rows section. -/
def excelReportLines (t : Table) : List String :=
  (process_excel_stats t).flatMap (fun p =>
    ["Statistics for " ++ p.1 ++ ":"] ++ statLines p.2)

/-! ## JSON values and the JSON summarizer (`process_json_data`, lines 180-200) -/

/-- A decoded JSON value as produced by `json.load` / `response.json()`.
JSON numbers are carried as rationals (int/float distinction abstracted). -/
inductive JsonVal : Type
  | obj (entries : List (String × JsonVal))
  | arr (elems : List JsonVal)
  | str (s : String)
  | num (q : ℚ)
  | bool (b : Bool)
  | null

/-- Whether the top-level value is a mapping (Python `dict`). -/
def JsonVal.isObj : JsonVal → Bool
  | .obj _ => true
  | _ => false

/-- Python truthiness of a decoded JSON value (`if json_content:`). -/
def truthyJson : JsonVal → Bool
  | .obj l => !l.isEmpty
  | .arr l => !l.isEmpty
  | .str s => !(s == "")
  | .num q => !(q == 0)
  | .bool b => b
  | .null => false

mutual
/-- Python `repr` of a decoded JSON value (used for values nested inside
containers). Numeric formatting is abstracted by the rational rendering. -/
def pyRepr : JsonVal → String
  | .obj l => "\x7b" ++ pyReprObj l ++ "\x7d"
  | .arr l => "[" ++ pyReprArr l ++ "]"
  | .str s => "'" ++ s ++ "'"
  | .num q => toString q
  | .bool b => if b then "True" else "False"
  | .null => "None"

/-- Comma-joined `repr`s of array elements. -/
def pyReprArr : List JsonVal → String
  | [] => ""
  | [x] => pyRepr x
  | x :: xs => pyRepr x ++ ", " ++ pyReprArr xs

/-- Comma-joined `repr`s of object entries. -/
def pyReprObj : List (String × JsonVal) → String
  | [] => ""
  | [p] => "'" ++ p.1 ++ "': " ++ pyRepr p.2
  | p :: ps => "'" ++ p.1 ++ "': " ++ pyRepr p.2 ++ ", " ++ pyReprObj ps
end

/-- Python `str` of a decoded JSON value (top-level rendering in
`f"{key}: {value}"`). -/
def pyStr : JsonVal → String
  | .str s => s
  | v => pyRepr v

/-- Python `len` on a decoded JSON value: defined for dicts, lists and
strings; raises `TypeError` (modelled as `none`) otherwise. -/
def jsonLen : JsonVal → Option Nat
  | .obj l => some l.length
  | .arr l => some l.length
  | .str s => some s.length
  | _ => none

/-- `json.dump(content, file, indent=4)`: some deterministic serialization
of the value (exact formatting abstracted). -/
def dumpJson (d : JsonVal) : String :=
  pyRepr d

/-- `process_json_data` given the decoded content of the input file.
Returns the content written to the report file (`none` when the file was
never opened) and whether the `except` branch ran (an error was caught and
logged).

The source computes `item_count = len(data)` before opening the report file,
so a `TypeError` from `len` leaves no report; for a list or string, the
`Item count` and `JSON data summary:` header lines are already written when
`data.items()` raises `AttributeError`, leaving a truncated report behind. -/
def process_json_data (d : JsonVal) : Option String × Bool :=
  match jsonLen d with
  | none => (none, true)
  | some n =>
    let hdr := "Item count: " ++ toString n ++ "\n" ++ "JSON data summary:\n"
    match d with
    | .obj entries =>
      (some (hdr ++ String.join (entries.map (fun p => p.1 ++ ": " ++ pyStr p.2 ++ "\n"))),
       false)
    | _ => (some hdr, true)

/-! ## Orchestrator (`main`, lines 236-276)

One HTTP GET per dataset. `transportError` models a `requests` exception
(DNS failure, connection refused; for the JSON dataset it also covers a
response-body decode error in `response.json()`), which no caller catches.
`status c p` models a completed response with status `c` and payload `p`.

Filesystem failures are modelled by `writeFails`: opening `f` for writing
raises (and leaves the file unchanged) exactly when `writeFails f = true`.
`readExcel` is the deterministic `pd.read_excel` parse of the spreadsheet
bytes (`none` = parse error). Reading back a file just written by the same
dataset's save step is modelled by passing the written value directly. -/

inductive FetchOutcome (α : Type) : Type
  | transportError
  | status (code : Nat) (payload : α)
deriving DecidableEq

/-- What a `fetch_*_data` call does with an outcome: raise, or log the
failure and return `None`, or return the payload (status 200). -/
inductive FetchRes (α : Type) : Type
  | raised
  | failed (code : Nat)
  | ok (payload : α)

/-- The shared body of the four `fetch_*_data` functions (lines 28-62):
return the payload on status 200, otherwise print and return `None`;
a transport error propagates. -/
def runFetch {α : Type} : FetchOutcome α → FetchRes α
  | .transportError => .raised
  | .status c p => if c = 200 then .ok p else .failed c

/-- The fixed remote environment of one run: spreadsheet bytes are carried
as an opaque string. -/
structure Env : Type where
  txt : FetchOutcome String
  csv : FetchOutcome String
  xls : FetchOutcome String
  json : FetchOutcome JsonVal
  writeFails : String → Bool
  readExcel : String → Option Table

/-- The effects of one dataset's pipeline: files written (in order), log
lines printed, functions invoked, and whether an uncaught exception escaped
(aborting `main`). Log lines abbreviate the source's `print` messages. -/
structure StepRes : Type where
  writes : List (String × String)
  log : List String
  invoked : List String
  aborted : Bool
deriving DecidableEq

/-- Text dataset block of `main` (lines 254-258). -/
def stepText (env : Env) : StepRes :=
  match runFetch env.txt with
  | .raised => ⟨[], [], [], true⟩
  | .failed c => ⟨[], ["Failed to fetch text data: " ++ toString c], [], false⟩
  | .ok p =>
    if p ≠ "" then
      if env.writeFails "data.txt" then
        ⟨[], [], ["save_text"], true⟩
      else if env.writeFails "processed_text.txt" then
        ⟨[("data.txt", p)], ["Text data saved", "Error processing text data"],
         ["save_text", "process_text_data"], false⟩
      else
        ⟨[("data.txt", p), ("processed_text.txt", process_text_report p)],
         ["Text data saved", "Text data processed"],
         ["save_text", "process_text_data"], false⟩
    else ⟨[], [], [], false⟩

/-- CSV dataset block of `main` (lines 260-264). `save_csv` parses the
fetched text with `pd.read_csv` outside any `try`, so a parse error (or a
write error) aborts the run; `process_csv_data` re-reads the saved file and
catches its own errors. -/
def stepCsv (env : Env) : StepRes :=
  match runFetch env.csv with
  | .raised => ⟨[], [], [], true⟩
  | .failed c => ⟨[], ["Failed to fetch CSV data: " ++ toString c], [], false⟩
  | .ok p =>
    if p ≠ "" then
      match parseCsv p with
      | none => ⟨[], [], ["save_csv"], true⟩
      | some df =>
        if env.writeFails "data.csv" then
          ⟨[], [], ["save_csv"], true⟩
        else
          let saved := serializeCsv df
          match parseCsv saved with
          | none =>
            ⟨[("data.csv", saved)], ["CSV data saved", "Error processing CSV data"],
             ["save_csv", "process_csv_data"], false⟩
          | some df2 =>
            if env.writeFails "processed_csv.txt" then
              ⟨[("data.csv", saved)], ["CSV data saved", "Error processing CSV data"],
               ["save_csv", "process_csv_data"], false⟩
            else
              ⟨[("data.csv", saved), ("processed_csv.txt", joinLines (csvReportLines df2))],
               ["CSV data saved", "CSV data processed"],
               ["save_csv", "process_csv_data"], false⟩
    else ⟨[], [], [], false⟩

/-- Spreadsheet dataset block of `main` (lines 266-270). `save_excel`
writes the bytes verbatim; `process_excel_data` parses the saved file and
catches its own errors. -/
def stepXls (env : Env) : StepRes :=
  match runFetch env.xls with
  | .raised => ⟨[], [], [], true⟩
  | .failed c => ⟨[], ["Failed to fetch Excel data: " ++ toString c], [], false⟩
  | .ok p =>
    if p ≠ "" then
      if env.writeFails "data.xls" then
        ⟨[], [], ["save_excel"], true⟩
      else
        match env.readExcel p with
        | none =>
          ⟨[("data.xls", p)], ["Excel data saved", "Error processing Excel data"],
           ["save_excel", "process_excel_data"], false⟩
        | some df =>
          if env.writeFails "processed_excel.txt" then
            ⟨[("data.xls", p)], ["Excel data saved", "Error processing Excel data"],
             ["save_excel", "process_excel_data"], false⟩
          else
            ⟨[("data.xls", p), ("processed_excel.txt", joinLines (excelReportLines df))],
             ["Excel data saved", "Excel data processed"],
             ["save_excel", "process_excel_data"], false⟩
    else ⟨[], [], [], false⟩

/-- JSON dataset block of `main` (lines 272-276). `save_json` can abort on
a write error; `process_json_data` catches its own errors, possibly leaving
a truncated report. -/
def stepJson (env : Env) : StepRes :=
  match runFetch env.json with
  | .raised => ⟨[], [], [], true⟩
  | .failed c => ⟨[], ["Failed to fetch JSON data: " ++ toString c], [], false⟩
  | .ok d =>
    if truthyJson d then
      if env.writeFails "data.json" then
        ⟨[], [], ["save_json"], true⟩
      else
        let base : List (String × String) := [("data.json", dumpJson d)]
        if env.writeFails "processed_json.txt" then
          ⟨base, ["JSON data saved", "Error processing JSON data"],
           ["save_json", "process_json_data"], false⟩
        else
          match process_json_data d with
          | (none, _) =>
            ⟨base, ["JSON data saved", "Error processing JSON data"],
             ["save_json", "process_json_data"], false⟩
          | (some rep, errored) =>
            ⟨base ++ [("processed_json.txt", rep)],
             ["JSON data saved",
              if errored then "Error processing JSON data" else "JSON data processed"],
             ["save_json", "process_json_data"], false⟩
    else ⟨[], [], [], false⟩

/-- The observable result of one `main` run. -/
structure RunResult : Type where
  writes : List (String × String)
  log : List String
  invoked : List String
  attempted : List String
  aborted : Bool
deriving DecidableEq

/-- `main`: the four dataset blocks in the fixed order text, CSV,
spreadsheet, JSON; an uncaught exception in one block prevents every later
block from running. -/
def runSteps (env : Env) : RunResult :=
  let t := stepText env
  if t.aborted then ⟨t.writes, t.log, t.invoked, ["text"], true⟩ else
  let c := stepCsv env
  if c.aborted then
    ⟨t.writes ++ c.writes, t.log ++ c.log, t.invoked ++ c.invoked, ["text", "csv"], true⟩
  else
  let x := stepXls env
  if x.aborted then
    ⟨t.writes ++ c.writes ++ x.writes, t.log ++ c.log ++ x.log,
     t.invoked ++ c.invoked ++ x.invoked, ["text", "csv", "excel"], true⟩
  else
  let j := stepJson env
  ⟨t.writes ++ c.writes ++ x.writes ++ j.writes, t.log ++ c.log ++ x.log ++ j.log,
   t.invoked ++ c.invoked ++ x.invoked ++ j.invoked,
   ["text", "csv", "excel", "json"], j.aborted⟩

/-! ## Filesystem -/

/-- A filesystem: an association list from filename to content. -/
abbrev FS : Type := List (String × String)

/-- Write one file: the newest entry shadows older ones; a file's content is
observed through `List.lookup`. -/
def setF (fs : FS) (k v : String) : FS :=
  (k, v) :: fs

/-- Apply a sequence of writes to a filesystem. -/
def applyWrites (fs : FS) (ws : List (String × String)) : FS :=
  ws.foldl (fun f p => setF f p.1 p.2) fs

/-- The filesystem after one full run of `main` over environment `env`
starting from `fs`. -/
def runMain (env : Env) (fs : FS) : FS :=
  applyWrites fs (runSteps env).writes

/-! ## Helper lemmas about the filesystem -/

/-- Left-biased choice on optional file contents. -/
def optOr (x y : Option String) : Option String :=
  match x with
  | some v => some v
  | none => y

theorem lookup_setF (fs : FS) (k v a : String) :
    List.lookup a (setF fs k v) = if a = k then some v else List.lookup a fs := by
  by_cases h : a = k
  · simp [setF, List.lookup, h]
  · have hb : (a == k) = false := beq_eq_false_iff_ne.mpr h
    simp [setF, List.lookup, hb, h]

theorem lookup_append (l₁ l₂ : FS) (a : String) :
    List.lookup a (l₁ ++ l₂) = optOr (List.lookup a l₁) (List.lookup a l₂) := by
  induction l₁ with
  | nil => simp [List.lookup, optOr]
  | cons p ps ih =>
    by_cases h : a = p.1
    · simp [List.lookup, h, optOr]
    · have hb : (a == p.1) = false := beq_eq_false_iff_ne.mpr h
      simp [List.lookup, hb, optOr, ih]

theorem lookup_applyWrites (ws : List (String × String)) :
    ∀ (fs : FS) (a : String),
      List.lookup a (applyWrites fs ws) =
        optOr (List.lookup a ws.reverse) (List.lookup a fs) := by
  induction ws with
  | nil => intro fs a; simp [applyWrites, List.lookup, optOr]
  | cons p ps ih =>
    intro fs a
    have step : applyWrites fs (p :: ps) = applyWrites (setF fs p.1 p.2) ps := rfl
    rw [step, ih, List.reverse_cons, lookup_append, lookup_setF]
    rcases h : List.lookup a ps.reverse with _ | v
    · by_cases hk : a = p.1
      · simp [optOr, List.lookup, hk]
      · have hb : (a == p.1) = false := beq_eq_false_iff_ne.mpr hk
        simp [optOr, List.lookup, hk, hb]
    · simp [optOr]

/-! ## Claim theorems -/

/-- Claim C9: running the full pipeline twice against unchanged remote
content produces byte-identical files (in particular report files) both
times: the writes a run performs are a function of the environment alone, so
a second run over the same environment leaves every file's content
unchanged. -/
theorem claim_C9 (env : Env) (fs : FS) (name : String) :
    List.lookup name (runMain env (runMain env fs)) =
      List.lookup name (runMain env fs) := by
  unfold runMain
  rw [lookup_applyWrites, lookup_applyWrites]
  rcases h : List.lookup name (runSteps env).writes.reverse with _ | v <;> simp [optOr]

/-- Claim C10: given a top-level JSON array, `process_json_data` has already
written the `Item count` line (the length of the array) and the
`JSON data summary:` header when the iteration over key/value pairs raises,
so the caught-and-logged error leaves a truncated two-line report behind
rather than an unchanged report file. -/
theorem claim_C10 (l : List JsonVal) :
    process_json_data (JsonVal.arr l) =
      (some ("Item count: " ++ toString l.length ++ "\n" ++ "JSON data summary:\n"),
       true) := by
  rfl

/-- A one-column table holding the values 1 and 2, used as a concrete
tabular input read identically from CSV and from a spreadsheet. -/
def tPair : Table :=
  { header := ["a"], rows := [[Cell.num 1], [Cell.num 2]] }

/-- Claim C2 is false as stated: on the same tabular content the two
summarizers produce different report text (the CSV report has a
rows-as-tuples section and differently formatted statistics headings). -/
theorem claim_C2_counterexample :
    csvReportLines tPair ≠ excelReportLines tPair := by
  decide

theorem statsHeading_ne_rowsHeading (x : String) :
    "Statistics for " ++ x ≠ "Rows as tuples:" := by
  intro h
  have hd := congrArg String.data h
  rw [String.data_append] at hd
  simp at hd

/-- Claim C2 amended: the two tabular summarizers compute identical
statistics (same columns, same metric values) on the same table, but their
report texts always differ — the CSV report opens with a rows-as-tuples
section and renders per-column headings as `<column>:`, while the
spreadsheet report emits only `Statistics for <column>:` headings. -/
theorem claim_C2_amended (t : Table) :
    process_csv_stats t = process_excel_stats t ∧
    csvReportLines t ≠ excelReportLines t := by
  refine ⟨rfl, ?_⟩
  intro hEq
  have h0 : (csvReportLines t).head? = some "Rows as tuples:" := rfl
  rw [hEq] at h0
  rcases hstats : process_excel_stats t with _ | ⟨p, ps⟩
  · rw [excelReportLines, hstats] at h0
    simp at h0
  · rw [excelReportLines, hstats] at h0
    simp at h0
    exact statsHeading_ne_rowsHeading (p.1 ++ ":") h0

/-- A one-column table holding the values 1, 2, 3, 4. -/
def tFour : Table :=
  { header := ["x"], rows := [[Cell.num 1], [Cell.num 2], [Cell.num 3], [Cell.num 4]] }

/-- A one-column table holding the single value 5. -/
def tSingle : Table :=
  { header := ["y"], rows := [[Cell.num 5]] }

/-- Claim C5: for every numeric column the tabular summarizer stores exactly
the five statistics mean, median, sample variance (whose square root is the
reported standard deviation), max and min of the column's non-null values;
the sample statistic uses the N-1 denominator and is NaN (`none`), not a
crash, for fewer than 2 values. On the column `[1,2,3,4]` it reports
mean `5/2`, median `5/2` (average of the two middle values), variance `5/3`
— so the standard deviation lies in `[1.2909944, 1.2909945)`, i.e. is
`1.2909944...` — max `4` and min `1`; on the single-value column `[5]` it
reports mean = median = max = min = `5` and a NaN standard deviation. -/
theorem claim_C5 :
    (∀ (t : Table) (p : String × ColStats), p ∈ process_csv_stats t →
      ∃ vals : List ℚ, (p.1, vals) ∈ numericCols t ∧
        p.2 = { mean := qMean vals, median := qMedian vals, svar := qSVar vals,
                max := qMax vals, min := qMin vals }) ∧
    (∀ l : List ℚ, l.length < 2 → qSVar l = none) ∧
    process_csv_stats tFour =
      [("x", { mean := some (5/2), median := some (5/2), svar := some (5/3),
               max := some 4, min := some 1 })] ∧
    ((12909944 : ℚ)/10^7)^2 < 5/3 ∧ ((5 : ℚ)/3) < ((12909945 : ℚ)/10^7)^2 ∧
    process_csv_stats tSingle =
      [("y", { mean := some 5, median := some 5, svar := none,
               max := some 5, min := some 5 })] := by
  refine ⟨?_, ?_, ?_, by norm_num, by norm_num, ?_⟩
  · intro t p hp
    rcases List.mem_map.mp hp with ⟨q, hq, hpq⟩
    exact ⟨q.2, by rw [← hpq]; exact hq, by rw [← hpq]⟩
  · intro l hl
    simp [qSVar, hl]
  · have hnc : numericCols tFour = [("x", [(1 : ℚ), 2, 3, 4])] := rfl
    have hs : sortQ [(1 : ℚ), 2, 3, 4] = [1, 2, 3, 4] := by
      norm_num [sortQ, insertSorted]
    have hm : qMean [(1 : ℚ), 2, 3, 4] = some (5/2) := by norm_num [qMean]
    have hmed : qMedian [(1 : ℚ), 2, 3, 4] = some (5/2) := by
      simp [qMedian, hs]; try norm_num
    have hv : qSVar [(1 : ℚ), 2, 3, 4] = some (5/3) := by
      simp [qSVar]; try norm_num
    have hmax : qMax [(1 : ℚ), 2, 3, 4] = some 4 := by
      simp [qMax, max_def]; try norm_num
    have hmin : qMin [(1 : ℚ), 2, 3, 4] = some 1 := by
      simp [qMin, min_def]; try norm_num
    rw [process_csv_stats, hnc]
    simp only [List.map]
    rw [hm, hmed, hv, hmax, hmin]
  · have hnc : numericCols tSingle = [("y", [(5 : ℚ)])] := rfl
    have hm : qMean [(5 : ℚ)] = some 5 := by norm_num [qMean]
    have hmed : qMedian [(5 : ℚ)] = some 5 := by simp [qMedian, sortQ, insertSorted]
    have hv : qSVar [(5 : ℚ)] = none := by simp [qSVar]
    have hmax : qMax [(5 : ℚ)] = some 5 := rfl
    have hmin : qMin [(5 : ℚ)] = some 5 := rfl
    rw [process_csv_stats, hnc]
    simp only [List.map]
    rw [hm, hmed, hv, hmax, hmin]

/-- Claim C5 witness: the general shape and the fewer-than-2-values rule,
instantiated at the concrete tables. -/
theorem claim_C5_witness :
    (∃ vals : List ℚ,
      (("x", vals) ∈ numericCols tFour) ∧
      ({ mean := some (5/2), median := some (5/2), svar := some (5/3),
         max := some 4, min := some 1 } : ColStats) =
        { mean := qMean vals, median := qMedian vals, svar := qSVar vals,
          max := qMax vals, min := qMin vals }) ∧
    qSVar [(5 : ℚ)] = none := by
  constructor
  · have h := claim_C5.1 tFour
      ("x", { mean := some (5/2), median := some (5/2), svar := some (5/3),
              max := some 4, min := some 1 })
      (by rw [claim_C5.2.2.1]; exact List.mem_singleton.mpr rfl)
    exact h
  · exact claim_C5.2.1 [(5 : ℚ)] (by norm_num)

/-- Claim C8: parsing CSV text into a table (first row = header) and
re-serializing preserves the header (column order) and every data row
including duplicates, so the summarizer's rows-as-tuples section has exactly
one line per input data row: input row count minus the header. -/
theorem claim_C8 (content : String) (h : List String) (rows : List (List String))
    (hsplit : splitCsvText content = h :: rows)
    (hwf : (rows.all (fun r => r.length ≤ h.length)) = true) :
    parseCsv content = some (parseTable h rows) ∧
    (parseTable h rows).header = h ∧
    (parseTable h rows).rows.length = rows.length ∧
    (serializeLines (parseTable h rows)).head? = some (joinCommas h) ∧
    (serializeLines (parseTable h rows)).length = rows.length + 1 ∧
    ((parseTable h rows).rows.map reprRow).length = rows.length := by
  refine ⟨?_, rfl, ?_, rfl, ?_, ?_⟩
  · rw [parseCsv, hsplit]
    simp [hwf]
  · simp [parseTable]
  · simp [serializeLines, parseTable]
  · simp [parseTable]

/-- Claim C8 witness: a CSV input with a duplicated data row. -/
theorem claim_C8_witness :
    parseCsv "a,b\n1,2\n1,2\n" =
      some (parseTable ["a", "b"] [["1", "2"], ["1", "2"]]) ∧
    (parseTable ["a", "b"] [["1", "2"], ["1", "2"]]).header = ["a", "b"] ∧
    (parseTable ["a", "b"] [["1", "2"], ["1", "2"]]).rows.length = 2 ∧
    (serializeLines (parseTable ["a", "b"] [["1", "2"], ["1", "2"]])).head? =
      some (joinCommas ["a", "b"]) ∧
    (serializeLines (parseTable ["a", "b"] [["1", "2"], ["1", "2"]])).length = 2 + 1 ∧
    ((parseTable ["a", "b"] [["1", "2"], ["1", "2"]]).rows.map reprRow).length = 2 := by
  exact claim_C8 "a,b\n1,2\n1,2\n" ["a", "b"] [["1", "2"], ["1", "2"]]
    (by decide) (by decide)

/-! ## Step safety lemmas: which conditions keep a dataset block from
raising an uncaught exception. -/

theorem stepText_safe (env : Env) (ht : env.txt ≠ FetchOutcome.transportError)
    (hw : env.writeFails "data.txt" = false) : (stepText env).aborted = false := by
  rcases htxt : env.txt with _ | ⟨c, p⟩
  · exact absurd htxt ht
  · simp only [stepText, htxt, runFetch]
    by_cases h200 : c = 200
    · simp only [if_pos h200]
      by_cases hp : p = ""
      · simp [hp]
      · cases hpe : env.writeFails "processed_text.txt" <;> simp [hp, hw, hpe]
    · simp [h200]

theorem stepCsv_safe (env : Env) (ht : env.csv ≠ FetchOutcome.transportError)
    (hw : env.writeFails "data.csv" = false)
    (hparse : ∀ p, env.csv = FetchOutcome.status 200 p → p ≠ "" →
      (parseCsv p).isSome = true) :
    (stepCsv env).aborted = false := by
  rcases htxt : env.csv with _ | ⟨c, p⟩
  · exact absurd htxt ht
  · simp only [stepCsv, htxt, runFetch]
    by_cases h200 : c = 200
    · simp only [if_pos h200]
      by_cases hp : p = ""
      · simp [hp]
      · have hps := hparse p (by rw [htxt, h200]) hp
        rcases hdf : parseCsv p with _ | df
        · rw [hdf] at hps; simp at hps
        · simp only [hdf, hp]
          rcases hdf2 : parseCsv (serializeCsv df) with _ | df2 <;>
            cases hpe : env.writeFails "processed_csv.txt" <;>
              simp [hp, hw, hpe, hdf2]
    · simp [h200]

theorem stepXls_safe (env : Env) (ht : env.xls ≠ FetchOutcome.transportError)
    (hw : env.writeFails "data.xls" = false) : (stepXls env).aborted = false := by
  rcases htxt : env.xls with _ | ⟨c, p⟩
  · exact absurd htxt ht
  · simp only [stepXls, htxt, runFetch]
    by_cases h200 : c = 200
    · simp only [if_pos h200]
      by_cases hp : p = ""
      · simp [hp]
      · rcases hdf : env.readExcel p with _ | df <;>
          cases hpe : env.writeFails "processed_excel.txt" <;>
            simp [hp, hw, hpe, hdf]
    · simp [h200]

theorem stepJson_safe (env : Env) (ht : env.json ≠ FetchOutcome.transportError)
    (hw : env.writeFails "data.json" = false) : (stepJson env).aborted = false := by
  rcases htxt : env.json with _ | ⟨c, d⟩
  · exact absurd htxt ht
  · simp only [stepJson, htxt, runFetch]
    by_cases h200 : c = 200
    · simp only [if_pos h200]
      cases htr : truthyJson d
      · simp [htr]
      · cases hpe : env.writeFails "processed_json.txt"
        · rcases hpj : process_json_data d with ⟨_ | rep, err⟩ <;>
            simp [htr, hw, hpe, hpj]
        · simp [htr, hw, hpe]
    · simp [h200]

/-! ## Concrete environments -/

/-- An environment where every fetch succeeds with well-formed content and
no filesystem write fails. -/
def envBenign : Env :=
  { txt := FetchOutcome.status 200 "hello world hello",
    csv := FetchOutcome.status 200 "a,b\n1,2\n",
    xls := FetchOutcome.status 200 "xlsbytes",
    json := FetchOutcome.status 200 (JsonVal.obj [("a", JsonVal.num 1)]),
    writeFails := fun _ => false,
    readExcel := fun _ => none }

/-- An environment whose text fetch hits a transport-level error. -/
def envTransport : Env :=
  { txt := FetchOutcome.transportError,
    csv := FetchOutcome.status 404 "",
    xls := FetchOutcome.status 404 "",
    json := FetchOutcome.status 404 JsonVal.null,
    writeFails := fun _ => false,
    readExcel := fun _ => none }

/-- An environment where the text fetch succeeds but writing `data.txt`
fails. -/
def envSaveFail : Env :=
  { txt := FetchOutcome.status 200 "hello",
    csv := FetchOutcome.status 404 "",
    xls := FetchOutcome.status 404 "",
    json := FetchOutcome.status 404 JsonVal.null,
    writeFails := fun f => f == "data.txt",
    readExcel := fun _ => none }

/-- Claim C1 is false as stated: a transport-level fetch error on the first
dataset, or a save failure there, aborts the whole run — the remaining three
datasets are never attempted, rather than only that dataset's remaining
steps being skipped. -/
theorem claim_C1_counterexample :
    ((runSteps envTransport).aborted = true ∧
      (runSteps envTransport).attempted = ["text"]) ∧
    ((runSteps envSaveFail).aborted = true ∧
      (runSteps envSaveFail).attempted = ["text"]) := by
  constructor
  · constructor <;> rfl
  · constructor <;> rfl

/-- Claim C1 amended: only a non-200 fetch status and errors inside the
summarizers are handled per dataset. When no fetch raises a transport error,
no save-step write fails, and fetched CSV content parses, the orchestrator
attempts all four datasets and completes; transport errors and save failures
instead abort the run (see the counterexample). -/
theorem claim_C1_amended (env : Env)
    (h1 : env.txt ≠ FetchOutcome.transportError)
    (h2 : env.csv ≠ FetchOutcome.transportError)
    (h3 : env.xls ≠ FetchOutcome.transportError)
    (h4 : env.json ≠ FetchOutcome.transportError)
    (w1 : env.writeFails "data.txt" = false)
    (w2 : env.writeFails "data.csv" = false)
    (w3 : env.writeFails "data.xls" = false)
    (w4 : env.writeFails "data.json" = false)
    (hp : ∀ p, env.csv = FetchOutcome.status 200 p → p ≠ "" →
      (parseCsv p).isSome = true) :
    (runSteps env).aborted = false ∧
    (runSteps env).attempted = ["text", "csv", "excel", "json"] := by
  have st := stepText_safe env h1 w1
  have sc := stepCsv_safe env h2 w2 hp
  have sx := stepXls_safe env h3 w3
  have sj := stepJson_safe env h4 w4
  rw [runSteps]
  simp [st, sc, sx, sj]

/-- Claim C1 amended, witnessed on a benign environment. -/
theorem claim_C1_witness :
    (runSteps envBenign).aborted = false ∧
    (runSteps envBenign).attempted = ["text", "csv", "excel", "json"] := by
  refine claim_C1_amended envBenign ?_ ?_ ?_ ?_ rfl rfl rfl rfl ?_
  · intro h; cases h
  · intro h; cases h
  · intro h; cases h
  · intro h; cases h
  · intro p hpe hne
    have h2 : "a,b\n1,2\n" = p := by injection hpe
    rw [← h2]
    decide

/-- An environment whose JSON dataset is a top-level array. -/
def envJsonArr : Env :=
  { txt := FetchOutcome.status 404 "",
    csv := FetchOutcome.status 404 "",
    xls := FetchOutcome.status 404 "",
    json := FetchOutcome.status 200
      (JsonVal.arr [JsonVal.num 1, JsonVal.num 2, JsonVal.num 3]),
    writeFails := fun _ => false,
    readExcel := fun _ => none }

/-- Claim C6: whenever the JSON summarizer is handed a decoded top-level
value that is not a mapping (an array, a string, or a scalar), its `except`
branch runs — the error is reported, not silently skipped — and the
orchestrator's JSON block does not raise, so execution continues without
terminating the process. -/
theorem claim_C6 (d : JsonVal) (env : Env) (hobj : d.isObj = false) :
    (process_json_data d).2 = true ∧
    (env.json = FetchOutcome.status 200 d → env.writeFails "data.json" = false →
      (stepJson env).aborted = false) := by
  constructor
  · cases d <;> simp_all [JsonVal.isObj, process_json_data, jsonLen]
  · intro hj hw
    exact stepJson_safe env (by rw [hj]; intro h; cases h) hw

/-- Claim C6, witnessed on the array `[1, 2, 3]`. -/
theorem claim_C6_witness :
    (process_json_data (JsonVal.arr [JsonVal.num 1, JsonVal.num 2, JsonVal.num 3])).2
      = true ∧
    (stepJson envJsonArr).aborted = false := by
  have h := claim_C6 (JsonVal.arr [JsonVal.num 1, JsonVal.num 2, JsonVal.num 3])
    envJsonArr rfl
  exact ⟨h.1, h.2 rfl rfl⟩

/-! ## Invocation characterizations for the orchestrator -/

/-- The text Writer runs iff the fetch completed with status 200 and the
returned text is truthy (non-empty). -/
def writerRunsTxt (env : Env) : Bool :=
  match env.txt with
  | FetchOutcome.status c p =>
    if c = 200 then (if p = "" then false else true) else false
  | _ => false

/-- The text Summarizer runs iff additionally saving `data.txt` succeeded. -/
def summarizerRunsTxt (env : Env) : Bool :=
  match env.txt with
  | FetchOutcome.status c p =>
    if c = 200 then
      (if p = "" then false
       else if env.writeFails "data.txt" then false else true)
    else false
  | _ => false

/-- The CSV Writer runs iff the fetch completed with status 200 and the
returned text is truthy. -/
def writerRunsCsv (env : Env) : Bool :=
  match env.csv with
  | FetchOutcome.status c p =>
    if c = 200 then (if p = "" then false else true) else false
  | _ => false

/-- The CSV Summarizer runs iff additionally the fetched text parsed and
saving `data.csv` succeeded. -/
def summarizerRunsCsv (env : Env) : Bool :=
  match env.csv with
  | FetchOutcome.status c p =>
    if c = 200 then
      (if p = "" then false
       else if (parseCsv p).isSome then
         (if env.writeFails "data.csv" then false else true)
       else false)
    else false
  | _ => false

/-- The spreadsheet Writer runs iff the fetch completed with status 200 and
the returned bytes are truthy. -/
def writerRunsXls (env : Env) : Bool :=
  match env.xls with
  | FetchOutcome.status c p =>
    if c = 200 then (if p = "" then false else true) else false
  | _ => false

/-- The spreadsheet Summarizer runs iff additionally saving `data.xls`
succeeded. -/
def summarizerRunsXls (env : Env) : Bool :=
  match env.xls with
  | FetchOutcome.status c p =>
    if c = 200 then
      (if p = "" then false
       else if env.writeFails "data.xls" then false else true)
    else false
  | _ => false

/-- The JSON Writer runs iff the fetch completed with status 200 and the
decoded value is truthy. -/
def writerRunsJson (env : Env) : Bool :=
  match env.json with
  | FetchOutcome.status c d => if c = 200 then truthyJson d else false
  | _ => false

/-- The JSON Summarizer runs iff additionally saving `data.json` succeeded. -/
def summarizerRunsJson (env : Env) : Bool :=
  match env.json with
  | FetchOutcome.status c d =>
    if c = 200 then
      (if truthyJson d then
        (if env.writeFails "data.json" then false else true)
       else false)
    else false
  | _ => false

/-- An environment whose text fetch succeeds (status 200) with an empty
body. -/
def envEmpty200 : Env :=
  { txt := FetchOutcome.status 200 "",
    csv := FetchOutcome.status 404 "",
    xls := FetchOutcome.status 404 "",
    json := FetchOutcome.status 404 JsonVal.null,
    writeFails := fun _ => false,
    readExcel := fun _ => none }

/-- Claim C7 is false as stated: a fetch can succeed with HTTP 200 while the
Writer is never invoked (empty body is falsy), and the Writer can be invoked
while the Summarizer is not (save failure), so "invoked iff the fetch
succeeds with status 200" fails in both directions. -/
theorem claim_C7_counterexample :
    (envEmpty200.txt = FetchOutcome.status 200 "" ∧
      (stepText envEmpty200).invoked = []) ∧
    (envSaveFail.txt = FetchOutcome.status 200 "hello" ∧
      "save_text" ∈ (stepText envSaveFail).invoked ∧
      "process_text_data" ∉ (stepText envSaveFail).invoked) := by
  refine ⟨⟨rfl, rfl⟩, rfl, ?_, ?_⟩ <;> decide

/-- Claim C7 amended: the datasets are processed in the fixed order text,
CSV, spreadsheet, JSON; for each dataset the Writer is invoked iff the fetch
completed with HTTP 200 *and* the returned content is truthy (non-empty
text/bytes, non-falsy JSON value), the matching Summarizer is invoked iff
additionally the save step succeeded (and, for CSV, the fetched text
parsed); on a non-200 fetch the orchestrator logs the failure and continues
without invoking either. -/
theorem claim_C7_amended (env : Env) :
    (("save_text" ∈ (stepText env).invoked) ↔ writerRunsTxt env = true) ∧
    (("process_text_data" ∈ (stepText env).invoked) ↔ summarizerRunsTxt env = true) ∧
    (("save_csv" ∈ (stepCsv env).invoked) ↔ writerRunsCsv env = true) ∧
    (("process_csv_data" ∈ (stepCsv env).invoked) ↔ summarizerRunsCsv env = true) ∧
    (("save_excel" ∈ (stepXls env).invoked) ↔ writerRunsXls env = true) ∧
    (("process_excel_data" ∈ (stepXls env).invoked) ↔ summarizerRunsXls env = true) ∧
    (("save_json" ∈ (stepJson env).invoked) ↔ writerRunsJson env = true) ∧
    (("process_json_data" ∈ (stepJson env).invoked) ↔ summarizerRunsJson env = true) ∧
    ((runSteps env).aborted = false →
      (runSteps env).attempted = ["text", "csv", "excel", "json"]) ∧
    (∀ c p, env.txt = FetchOutcome.status c p → c ≠ 200 →
      stepText env = ⟨[], ["Failed to fetch text data: " ++ toString c], [], false⟩) ∧
    (∀ c p, env.csv = FetchOutcome.status c p → c ≠ 200 →
      stepCsv env = ⟨[], ["Failed to fetch CSV data: " ++ toString c], [], false⟩) ∧
    (∀ c p, env.xls = FetchOutcome.status c p → c ≠ 200 →
      stepXls env = ⟨[], ["Failed to fetch Excel data: " ++ toString c], [], false⟩) ∧
    (∀ c d, env.json = FetchOutcome.status c d → c ≠ 200 →
      stepJson env = ⟨[], ["Failed to fetch JSON data: " ++ toString c], [], false⟩) := by
  have hT1 : ("save_text" ∈ (stepText env).invoked) ↔ writerRunsTxt env = true := by
    rcases htxt : env.txt with _ | ⟨c, p⟩
    · simp [stepText, writerRunsTxt, htxt, runFetch]
    · by_cases h200 : c = 200
      · by_cases hp : p = ""
        · simp [stepText, writerRunsTxt, htxt, runFetch, h200, hp]
        · by_cases hw : env.writeFails "data.txt"
          · simp [stepText, writerRunsTxt, htxt, runFetch, h200, hp, hw]
          · by_cases hw2 : env.writeFails "processed_text.txt" <;>
              simp [stepText, writerRunsTxt, htxt, runFetch, h200, hp, hw, hw2]
      · simp [stepText, writerRunsTxt, htxt, runFetch, h200]
  have hT2 : ("process_text_data" ∈ (stepText env).invoked) ↔
      summarizerRunsTxt env = true := by
    rcases htxt : env.txt with _ | ⟨c, p⟩
    · simp [stepText, summarizerRunsTxt, htxt, runFetch]
    · by_cases h200 : c = 200
      · by_cases hp : p = ""
        · simp [stepText, summarizerRunsTxt, htxt, runFetch, h200, hp]
        · by_cases hw : env.writeFails "data.txt"
          · simp [stepText, summarizerRunsTxt, htxt, runFetch, h200, hp, hw]
          · by_cases hw2 : env.writeFails "processed_text.txt" <;>
              simp [stepText, summarizerRunsTxt, htxt, runFetch, h200, hp, hw, hw2]
      · simp [stepText, summarizerRunsTxt, htxt, runFetch, h200]
  have hC1 : ("save_csv" ∈ (stepCsv env).invoked) ↔ writerRunsCsv env = true := by
    rcases htxt : env.csv with _ | ⟨c, p⟩
    · simp [stepCsv, writerRunsCsv, htxt, runFetch]
    · by_cases h200 : c = 200
      · by_cases hp : p = ""
        · simp [stepCsv, writerRunsCsv, htxt, runFetch, h200, hp]
        · rcases hdf : parseCsv p with _ | df
          · simp [stepCsv, writerRunsCsv, htxt, runFetch, h200, hp, hdf]
          · by_cases hw : env.writeFails "data.csv"
            · simp [stepCsv, writerRunsCsv, htxt, runFetch, h200, hp, hdf, hw]
            · rcases hdf2 : parseCsv (serializeCsv df) with _ | df2 <;>
                by_cases hw2 : env.writeFails "processed_csv.txt" <;>
                  simp [stepCsv, writerRunsCsv, htxt, runFetch, h200, hp, hdf, hw,
                    hdf2, hw2]
      · simp [stepCsv, writerRunsCsv, htxt, runFetch, h200]
  have hC2 : ("process_csv_data" ∈ (stepCsv env).invoked) ↔
      summarizerRunsCsv env = true := by
    rcases htxt : env.csv with _ | ⟨c, p⟩
    · simp [stepCsv, summarizerRunsCsv, htxt, runFetch]
    · by_cases h200 : c = 200
      · by_cases hp : p = ""
        · simp [stepCsv, summarizerRunsCsv, htxt, runFetch, h200, hp]
        · rcases hdf : parseCsv p with _ | df
          · simp [stepCsv, summarizerRunsCsv, htxt, runFetch, h200, hp, hdf]
          · by_cases hw : env.writeFails "data.csv"
            · simp [stepCsv, summarizerRunsCsv, htxt, runFetch, h200, hp, hdf, hw]
            · rcases hdf2 : parseCsv (serializeCsv df) with _ | df2 <;>
                by_cases hw2 : env.writeFails "processed_csv.txt" <;>
                  simp [stepCsv, summarizerRunsCsv, htxt, runFetch, h200, hp, hdf,
                    hw, hdf2, hw2]
      · simp [stepCsv, summarizerRunsCsv, htxt, runFetch, h200]
  have hX1 : ("save_excel" ∈ (stepXls env).invoked) ↔ writerRunsXls env = true := by
    rcases htxt : env.xls with _ | ⟨c, p⟩
    · simp [stepXls, writerRunsXls, htxt, runFetch]
    · by_cases h200 : c = 200
      · by_cases hp : p = ""
        · simp [stepXls, writerRunsXls, htxt, runFetch, h200, hp]
        · by_cases hw : env.writeFails "data.xls"
          · simp [stepXls, writerRunsXls, htxt, runFetch, h200, hp, hw]
          · rcases hdf : env.readExcel p with _ | df <;>
              by_cases hw2 : env.writeFails "processed_excel.txt" <;>
                simp [stepXls, writerRunsXls, htxt, runFetch, h200, hp, hw, hdf, hw2]
      · simp [stepXls, writerRunsXls, htxt, runFetch, h200]
  have hX2 : ("process_excel_data" ∈ (stepXls env).invoked) ↔
      summarizerRunsXls env = true := by
    rcases htxt : env.xls with _ | ⟨c, p⟩
    · simp [stepXls, summarizerRunsXls, htxt, runFetch]
    · by_cases h200 : c = 200
      · by_cases hp : p = ""
        · simp [stepXls, summarizerRunsXls, htxt, runFetch, h200, hp]
        · by_cases hw : env.writeFails "data.xls"
          · simp [stepXls, summarizerRunsXls, htxt, runFetch, h200, hp, hw]
          · rcases hdf : env.readExcel p with _ | df <;>
              by_cases hw2 : env.writeFails "processed_excel.txt" <;>
                simp [stepXls, summarizerRunsXls, htxt, runFetch, h200, hp, hw,
                  hdf, hw2]
      · simp [stepXls, summarizerRunsXls, htxt, runFetch, h200]
  have hJ1 : ("save_json" ∈ (stepJson env).invoked) ↔ writerRunsJson env = true := by
    rcases htxt : env.json with _ | ⟨c, d⟩
    · simp [stepJson, writerRunsJson, htxt, runFetch]
    · by_cases h200 : c = 200
      · cases htr : truthyJson d
        · simp [stepJson, writerRunsJson, htxt, runFetch, h200, htr]
        · by_cases hw : env.writeFails "data.json"
          · simp [stepJson, writerRunsJson, htxt, runFetch, h200, htr, hw]
          · by_cases hw2 : env.writeFails "processed_json.txt"
            · simp [stepJson, writerRunsJson, htxt, runFetch, h200, htr, hw, hw2]
            · rcases hpj : process_json_data d with ⟨_ | rep, err⟩ <;>
                simp [stepJson, writerRunsJson, htxt, runFetch, h200, htr, hw,
                  hw2, hpj]
      · simp [stepJson, writerRunsJson, htxt, runFetch, h200]
  have hJ2 : ("process_json_data" ∈ (stepJson env).invoked) ↔
      summarizerRunsJson env = true := by
    rcases htxt : env.json with _ | ⟨c, d⟩
    · simp [stepJson, summarizerRunsJson, htxt, runFetch]
    · by_cases h200 : c = 200
      · cases htr : truthyJson d
        · simp [stepJson, summarizerRunsJson, htxt, runFetch, h200, htr]
        · by_cases hw : env.writeFails "data.json"
          · simp [stepJson, summarizerRunsJson, htxt, runFetch, h200, htr, hw]
          · by_cases hw2 : env.writeFails "processed_json.txt"
            · simp [stepJson, summarizerRunsJson, htxt, runFetch, h200, htr, hw, hw2]
            · rcases hpj : process_json_data d with ⟨_ | rep, err⟩ <;>
                simp [stepJson, summarizerRunsJson, htxt, runFetch, h200, htr, hw,
                  hw2, hpj]
      · simp [stepJson, summarizerRunsJson, htxt, runFetch, h200]
  have hOrder : (runSteps env).aborted = false →
      (runSteps env).attempted = ["text", "csv", "excel", "json"] := by
    intro h
    rw [runSteps] at h ⊢
    cases hT : (stepText env).aborted
    · cases hC : (stepCsv env).aborted
      · cases hX : (stepXls env).aborted
        · simp [hT, hC, hX]
        · simp [hT, hC, hX] at h
      · simp [hT, hC] at h
    · simp [hT] at h
  refine ⟨hT1, hT2, hC1, hC2, hX1, hX2, hJ1, hJ2, hOrder, ?_, ?_, ?_, ?_⟩
  · intro c p he hc
    simp [stepText, he, runFetch, hc]
  · intro c p he hc
    simp [stepCsv, he, runFetch, hc]
  · intro c p he hc
    simp [stepXls, he, runFetch, hc]
  · intro c d he hc
    simp [stepJson, he, runFetch, hc]

/-- Claim C7 amended, witnessed: on a benign environment the text Writer is
invoked, and on an environment whose text fetch returns 404 the orchestrator
logs the failure and continues. -/
theorem claim_C7_witness :
    ("save_text" ∈ (stepText envBenign).invoked) ∧
    stepText envJsonArr =
      ⟨[], ["Failed to fetch text data: " ++ toString 404], [], false⟩ := by
  refine ⟨(claim_C7_amended envBenign).1.mpr rfl, ?_⟩
  exact (claim_C7_amended envJsonArr).2.2.2.2.2.2.2.2.2.1 404 "" rfl (by decide)

/-! ## Word-frequency lemmas -/

theorem lookup_isSome_iff (m : List (String × Nat)) (w : String) :
    ((m.lookup w).isSome = true) ↔ w ∈ m.map Prod.fst := by
  induction m with
  | nil => simp [List.lookup]
  | cons p ps ih =>
    obtain ⟨k, v⟩ := p
    by_cases h : w = k
    · simp [List.lookup, h]
    · have hb : (w == k) = false := beq_eq_false_iff_ne.mpr h
      simp [List.lookup, hb, h, ih]

theorem mem_firstSeenFrom_iff (x : String) :
    ∀ (ws seen : List String),
      x ∈ firstSeenFrom seen ws ↔ (x ∈ ws ∧ x ∉ seen) := by
  intro ws
  induction ws with
  | nil => intro seen; simp [firstSeenFrom]
  | cons w ws ih =>
    intro seen
    rw [firstSeenFrom]
    by_cases h : w ∈ seen
    · rw [if_pos h, ih]
      constructor
      · rintro ⟨hx, hs⟩
        exact ⟨List.mem_cons_of_mem w hx, hs⟩
      · rintro ⟨hx, hs⟩
        rcases List.mem_cons.mp hx with he | ht
        · exact absurd (he ▸ h) hs
        · exact ⟨ht, hs⟩
    · rw [if_neg h]
      constructor
      · intro hx
        rcases List.mem_cons.mp hx with he | ht
        · exact ⟨he ▸ List.mem_cons_self w ws, he ▸ h⟩
        · have := (ih (seen ++ [w])).mp ht
          exact ⟨List.mem_cons_of_mem w this.1,
            fun hs => this.2 (List.mem_append_left [w] hs)⟩
      · rintro ⟨hx, hs⟩
        by_cases hxw : x = w
        · exact hxw ▸ List.mem_cons_self w _
        · rcases List.mem_cons.mp hx with he | ht
          · exact absurd he hxw
          · refine List.mem_cons_of_mem w ((ih (seen ++ [w])).mpr ⟨ht, ?_⟩)
            intro hmem
            rcases List.mem_append.mp hmem with h1 | h2
            · exact hs h1
            · exact hxw (List.mem_singleton.mp h2)

theorem nodup_firstSeenFrom : ∀ (ws seen : List String),
    (firstSeenFrom seen ws).Nodup := by
  intro ws
  induction ws with
  | nil => intro seen; simp [firstSeenFrom]
  | cons w ws ih =>
    intro seen
    rw [firstSeenFrom]
    by_cases h : w ∈ seen
    · rw [if_pos h]; exact ih seen
    · rw [if_neg h]
      refine List.nodup_cons.mpr ⟨?_, ih (seen ++ [w])⟩
      intro hmem
      have := (mem_firstSeenFrom_iff w ws (seen ++ [w])).mp hmem
      exact this.2 (List.mem_append_right seen (List.mem_singleton.mpr rfl))

theorem foldl_insertWord (ws : List String) : ∀ m : List (String × Nat),
    ws.foldl insertWord m =
      m.map (fun p => (p.1, p.2 + ws.count p.1))
      ++ (firstSeenFrom (m.map Prod.fst) ws).map (fun w => (w, ws.count w)) := by
  induction ws with
  | nil =>
    intro m
    simp [firstSeenFrom]
  | cons w ws ih =>
    intro m
    rw [List.foldl_cons, ih (insertWord m w)]
    by_cases h : w ∈ m.map Prod.fst
    · rw [insertWord, if_pos ((lookup_isSome_iff m w).mpr h)]
      have hkeys :
          (m.map (fun p => if p.1 = w then (p.1, p.2 + 1) else p)).map Prod.fst =
            m.map Prod.fst := by
        rw [List.map_map]
        exact List.map_congr_left (fun p _ => by by_cases hp : p.1 = w <;> simp [hp])
      rw [hkeys]
      rw [show firstSeenFrom (m.map Prod.fst) (w :: ws) =
            firstSeenFrom (m.map Prod.fst) ws from by rw [firstSeenFrom, if_pos h]]
      congr 1
      · rw [List.map_map]
        apply List.map_congr_left
        intro p _
        by_cases hpw : p.1 = w
        · simp [Function.comp, hpw, List.count_cons, Prod.ext_iff]
          omega
        · have hb : (p.1 == w) = false := beq_eq_false_iff_ne.mpr hpw
          have hb2 : ¬ (w = p.1) := fun hh => hpw hh.symm
          simp [Function.comp, hpw, List.count_cons, hb, hb2]
      · apply List.map_congr_left
        intro x hx
        have hxs := (mem_firstSeenFrom_iff x ws (m.map Prod.fst)).mp hx
        have hxw : x ≠ w := fun he => hxs.2 (he ▸ h)
        have hb : (x == w) = false := beq_eq_false_iff_ne.mpr hxw
        have hb2 : ¬ (w = x) := fun hh => hxw hh.symm
        simp [List.count_cons, hb, hb2]
    · rw [insertWord, if_neg (fun hh => h ((lookup_isSome_iff m w).mp hh))]
      have hkeys : (m ++ [(w, 1)]).map Prod.fst = m.map Prod.fst ++ [w] := by simp
      rw [hkeys]
      have h1 : (m ++ [(w, 1)]).map
            (fun (p : String × Nat) => (p.1, p.2 + ws.count p.1)) =
          m.map (fun (p : String × Nat) => (p.1, p.2 + (w :: ws).count p.1))
            ++ [(w, (w :: ws).count w)] := by
        rw [List.map_append]
        congr 1
        · apply List.map_congr_left
          intro p hp
          have hpw : p.1 ≠ w := fun he => h (he ▸ List.mem_map_of_mem Prod.fst hp)
          have hb : (p.1 == w) = false := beq_eq_false_iff_ne.mpr hpw
          have hb2 : ¬ (w = p.1) := fun hh => hpw hh.symm
          simp [List.count_cons, hb, hb2]
        · have hc : (w :: ws).count w = ws.count w + 1 := by
            simp [List.count_cons]
          simp [hc, Nat.add_comm]
      have h2 : firstSeenFrom (m.map Prod.fst) (w :: ws) =
          w :: firstSeenFrom (m.map Prod.fst ++ [w]) ws := by
        rw [firstSeenFrom, if_neg h]
      have h3 : (firstSeenFrom (m.map Prod.fst ++ [w]) ws).map
            (fun x => (x, ws.count x)) =
          (firstSeenFrom (m.map Prod.fst ++ [w]) ws).map
            (fun x => (x, (w :: ws).count x)) := by
        apply List.map_congr_left
        intro x hx
        have hxs := (mem_firstSeenFrom_iff x ws (m.map Prod.fst ++ [w])).mp hx
        have hxw : x ≠ w := fun he =>
          hxs.2 (he ▸ List.mem_append_right _ (List.mem_singleton.mpr rfl))
        have hb : (x == w) = false := beq_eq_false_iff_ne.mpr hxw
        have hb2 : ¬ (w = x) := fun hh => hxw hh.symm
        simp [List.count_cons, hb, hb2]
      rw [h1, h3, h2, List.map_cons]
      simp [List.append_assoc]

/-- The word-frequency dictionary lists each distinct word once, in
first-seen order, paired with its occurrence count. -/
theorem word_freq_eq (ws : List String) :
    word_freq ws = (firstSeen ws).map (fun w => (w, ws.count w)) := by
  rw [word_freq, foldl_insertWord]
  simp [firstSeen]

/-- `len(set(words))` agrees with the length of the first-seen-order list of
distinct words. -/
theorem dedup_length_eq_firstSeen (ws : List String) :
    ws.dedup.length = (firstSeen ws).length := by
  have h1 : (firstSeen ws).Nodup := nodup_firstSeenFrom ws []
  have h3 : ws.dedup.Nodup := List.nodup_dedup ws
  have hset : ws.dedup.toFinset = (firstSeen ws).toFinset := by
    ext x
    simp only [List.mem_toFinset, List.mem_dedup, firstSeen]
    rw [mem_firstSeenFrom_iff]
    simp
  have c1 := List.toFinset_card_of_nodup h1
  have c3 := List.toFinset_card_of_nodup h3
  rw [← c1, ← c3, hset]

/-- Claim C3: for every text input the report's `Total words` line counts
the whitespace-delimited tokens, its `Unique words` line counts the distinct
byte-identical tokens, and the frequency section has exactly one
`word: count` line per distinct word, in first-seen order, with the word's
occurrence count; the empty file yields `Total words: 0`, `Unique words: 0`
and an empty frequency section. -/
theorem claim_C3 (text : String) :
    process_text_lines text =
      ["Total words: " ++ toString (pyTokens text).length,
       "Unique words: " ++ toString (firstSeen (pyTokens text)).length,
       "Word frequencies:"]
      ++ (firstSeen (pyTokens text)).map
          (fun w => w ++ ": " ++ toString ((pyTokens text).count w)) ∧
    (firstSeen (pyTokens text)).Nodup ∧
    (∀ w, w ∈ firstSeen (pyTokens text) ↔ w ∈ pyTokens text) ∧
    process_text_lines "" = ["Total words: 0", "Unique words: 0", "Word frequencies:"] := by
  refine ⟨?_, nodup_firstSeenFrom (pyTokens text) [], ?_, by rfl⟩
  · rw [process_text_lines]
    rw [word_freq_eq, List.map_map, dedup_length_eq_firstSeen]
    rfl
  · intro w
    rw [firstSeen, mem_firstSeenFrom_iff]
    simp

/-! ## Numeric-column detection lemmas -/

theorem getD_map_range {α : Type} (n j : Nat) (f : Nat → α) (d : α) (hj : j < n) :
    ((List.range n).map f).getD j d = f j := by
  have hlt : j < ((List.range n).map f).length := by simp [hj]
  rw [List.getD_eq_getElem _ _ hlt]
  simp

theorem colCells_parseTable (h : List String) (rows : List (List String)) (j : Nat)
    (hj : j < h.length) :
    colCells (parseTable h rows) j =
      rows.map (fun r =>
        mkCell (colNumericRaw (rows.map (fun r => r.getD j ""))) (r.getD j "")) := by
  simp only [colCells, parseTable]
  rw [List.map_map]
  apply List.map_congr_left
  intro r _
  simp only [Function.comp]
  rw [getD_map_range _ _ _ _ hj, getD_map_range _ _ _ _ hj]

theorem isNumCol_mkCell (fields : List String) :
    isNumCol (fields.map (mkCell (colNumericRaw fields))) = colNumericRaw fields := by
  cases hflag : colNumericRaw fields
  · rw [colNumericRaw, List.all_eq_false] at hflag
    obtain ⟨f, hf, hfp⟩ := hflag
    have hfne : ¬ (f = "") := by
      intro he
      apply hfp
      simp [he]
    have hfns : (parseField f).isSome = false := by
      cases hps : (parseField f).isSome
      · rfl
      · exact absurd (by simp [hps]) hfp
    rw [isNumCol, List.all_eq_false]
    refine ⟨mkCell false f, List.mem_map_of_mem _ hf, ?_⟩
    rcases hpf : parseField f with _ | q
    · simp [mkCell, hfne, hpf]
    · rw [hpf] at hfns; simp at hfns
  · rw [isNumCol, List.all_eq_true]
    intro c hc
    obtain ⟨f, hf, hcf⟩ := List.mem_map.mp hc
    have hforall := List.all_eq_true.mp (by rw [colNumericRaw] at hflag; exact hflag) f hf
    by_cases hfe : f = ""
    · rw [← hcf]
      simp [mkCell, hfe]
    · have hps : (parseField f).isSome = true := by
        simp [hfe] at hforall
        exact hforall
      obtain ⟨q, hq⟩ := Option.isSome_iff_exists.mp hps
      rw [← hcf]
      simp [mkCell, hfe, hq]

/-- Claim C4: in the tabular summarizer a column appears in the statistics
section iff every non-null (non-empty) raw value in it parses as a number;
columns failing this test get no entry at all in the `stats` dictionary. -/
theorem claim_C4 (h : List String) (rows : List (List String)) (i : Nat)
    (hnd : h.Nodup) (hi : i < h.length)
    (hwf : (rows.all (fun r => r.length ≤ h.length)) = true) :
    ((h.getD i "") ∈ (process_csv_stats (parseTable h rows)).map Prod.fst ↔
      (rows.all (fun r =>
        (r.getD i "" : String) = "" || (parseField (r.getD i "")).isSome)) = true) := by
  have hkeys : (process_csv_stats (parseTable h rows)).map Prod.fst =
      (numericCols (parseTable h rows)).map Prod.fst := by
    rw [process_csv_stats, List.map_map]
    rfl
  have hflag : ∀ j, j < h.length →
      isNumCol (colCells (parseTable h rows) j) =
        colNumericRaw (rows.map (fun r => r.getD j "")) := by
    intro j hj
    rw [colCells_parseTable h rows j hj]
    have hin := isNumCol_mkCell (rows.map (fun r => r.getD j ""))
    rw [List.map_map] at hin
    simpa [Function.comp] using hin
  have all_map_local : ∀ {α β : Type} (l : List α) (f : α → β) (p : β → Bool),
      (l.map f).all p = l.all (fun x => p (f x)) := by
    intro α β l f p
    induction l with
    | nil => rfl
    | cons x xs ih => simp [ih]
  have hall : colNumericRaw (rows.map (fun r => r.getD i "")) =
      rows.all (fun r =>
        (r.getD i "" : String) = "" || (parseField (r.getD i "")).isSome) := by
    rw [colNumericRaw]
    exact all_map_local rows _ _
  rw [hkeys]
  constructor
  · intro hmem
    obtain ⟨p, hp, hpe⟩ := List.mem_map.mp hmem
    rw [numericCols] at hp
    obtain ⟨j, hjr, hpj⟩ := List.mem_filterMap.mp hp
    have hjlt : j < h.length := by
      have := List.mem_range.mp hjr
      simpa [parseTable] using this
    by_cases hnum : isNumCol (colCells (parseTable h rows) j) = true
    · rw [if_pos hnum] at hpj
      have hp1 : p.1 = h.getD j "" := by
        injection hpj with hpj'
        rw [← hpj']
        rfl
      have hji : h.getD j "" = h.getD i "" := by rw [← hp1, hpe]
      have hj_eq : j = i := by
        rw [List.getD_eq_getElem _ _ hjlt, List.getD_eq_getElem _ _ hi] at hji
        exact (List.Nodup.getElem_inj_iff hnd).mp hji
      rw [← hall, ← hflag i hi, ← hj_eq]
      exact hnum
    · rw [if_neg hnum] at hpj
      cases hpj
  · intro hall_true
    have hnum : isNumCol (colCells (parseTable h rows) i) = true := by
      rw [hflag i hi, hall]
      exact hall_true
    refine List.mem_map.mpr ⟨((parseTable h rows).header.getD i "",
      colNums (colCells (parseTable h rows) i)), ?_, by rfl⟩
    rw [numericCols]
    refine List.mem_filterMap.mpr ⟨i, ?_, ?_⟩
    · exact List.mem_range.mpr (by simpa [parseTable] using hi)
    · rw [if_pos hnum]

/-- Claim C4, witnessed on a table whose first column is all-numeric and
whose second column contains a non-numeric value. -/
theorem claim_C4_witness :
    (("a" : String) ∈
      (process_csv_stats (parseTable ["a", "b"] [["1", "x"], ["2", "y"]])).map
        Prod.fst) ∧
    ¬ (("b" : String) ∈
      (process_csv_stats (parseTable ["a", "b"] [["1", "x"], ["2", "y"]])).map
        Prod.fst) := by
  constructor
  · have h := claim_C4 ["a", "b"] [["1", "x"], ["2", "y"]] 0
      (by decide) (by decide) (by decide)
    exact h.mpr (by decide)
  · have h := claim_C4 ["a", "b"] [["1", "x"], ["2", "y"]] 1
      (by decide) (by decide) (by decide)
    intro hmem
    have := h.mp hmem
    exact absurd this (by decide)
